import Mathlib

/-!
Shallow embedding of `src/server/main.py` (the eBay Auto Specifics relay).

The only algorithmic component of the module is the `/analyze` Flask handler
together with `check_credentials` and the `/status` handler.  External
collaborators (the HTTP image download via `requests.get`, the Google
Vision `label_detection` call, the OpenAI chat-completion call) and the
standard-library JSON parser (`json.loads`) are modelled as function
parameters; everything written in the repository itself is translated
definitionally below.

Python-level semantics that the source relies on are modelled explicitly:
truthiness of JSON values (`if not data:`), the membership operator
`f in creds_dict` (key membership on dicts, element membership on lists,
substring test on strings, `TypeError` otherwise), `dict.get` (which
raises `AttributeError` on non-dicts), and list indexing (`IndexError`
when out of range).  Exceptions are `Except.error`; the outer
`try/except Exception` of the handler is the catch-all that turns them into 500
responses.
-/

namespace AutoSpecifics

/-- JSON values, as produced by `json.loads` / consumed by `jsonify`. -/
inductive Json where
  | null : Json
  | bool (b : Bool) : Json
  | num (n : Int) : Json
  | str (s : String) : Json
  | arr (elems : List Json) : Json
  | obj (fields : List (String × Json)) : Json
deriving Repr, Inhabited

/-- Python truthiness of a JSON value (`None`, `False`, `0`, `""`, `[]`,
`{}` are falsy). -/
def Json.isTruthy : Json → Bool
  | .null => false
  | .bool b => b
  | .num n => n != 0
  | .str s => s != ""
  | .arr xs => !xs.isEmpty
  | .obj kvs => !kvs.isEmpty

/-- The list `needle` occurs as a contiguous substring of `hay`. -/
def isSubstrList (needle hay : List Char) : Bool :=
  hay.tails.any (fun t => needle.isPrefixOf t)

/-- Python `needle in hay` for strings: substring test. -/
def isSubstr (needle hay : String) : Bool :=
  isSubstrList needle.toList hay.toList

/-- Python membership `f in j` on a parsed JSON value: key membership on
dicts, element membership on lists, substring test on strings, and a
`TypeError` on values that are not containers. -/
def pyIn (f : String) : Json → Except String Bool
  | .obj kvs => .ok (kvs.any (fun kv => kv.1 == f))
  | .arr xs =>
      .ok (xs.any (fun x => match x with | .str s => s == f | _ => false))
  | .str s => .ok (isSubstr f s)
  | _ => .error "TypeError: argument of type is not iterable"

/-- Python `d.get(k)`: value (or `None`) on a dict, `AttributeError` on
anything else. -/
def pyGet (j : Json) (k : String) : Except String Json :=
  match j with
  | .obj kvs =>
      match kvs.find? (fun kv => kv.1 == k) with
      | some kv => .ok kv.2
      | none => .ok Json.null
  | _ => .error "AttributeError: object has no attribute get"

/-- Python `s.startswith(pre)` (structurally, on the character list). -/
def pyStartsWith (s pre : String) : Bool :=
  pre.toList.isPrefixOf s.toList

/-- Python `xs[i]`: the element, or an `IndexError` when out of range. -/
def pyIndex (xs : List String) (i : Nat) : Except String String :=
  match xs.get? i with
  | some v => .ok v
  | none => .error "IndexError: list index out of range"

/-- First value bound to key `k` in a JSON object, if any. -/
def jsonLookup (j : Json) (k : String) : Option Json :=
  match j with
  | .obj kvs =>
      match kvs.find? (fun kv => kv.1 == k) with
      | some kv => some kv.2
      | none => none
  | _ => none

/-- Process-wide configuration and ambient library behaviour.
`parseJson` models `json.loads` (its `error` case is a
`json.JSONDecodeError` carrying the message); `visionClientInit` models
whether the module-level `vision_client` global is not `None` after the
startup block. -/
structure Env where
  googleCredentials : Option String
  openaiApiKey : Option String
  parseJson : String → Except String Json
  visionClientInit : Bool

/-- Result of `check_credentials` (the `status` dict). -/
structure CredStatus where
  google : Bool
  openai : Bool
  errors : List String
deriving Repr, DecidableEq

/-- The `required_fields` list of `check_credentials`. -/
def required_fields : List String :=
  ["type", "project_id", "private_key", "client_email"]

/-- The list comprehension
`[f for f in required_fields if f not in creds_dict]`, with Python
membership semantics (may raise `TypeError`). -/
def missingAux (j : Json) : List String → Except String (List String)
  | [] => .ok []
  | f :: fs => do
      let b ← pyIn f j
      let rest ← missingAux j fs
      pure (if b then rest else f :: rest)

/-- The Google half of `check_credentials`: flag plus appended errors. -/
def googleCheck (env : Env) : Except String (Bool × List String) :=
  match env.googleCredentials with
  | none => .ok (false, ["GOOGLE_CREDENTIALS not found in environment"])
  | some s =>
      if s = "" then
        .ok (false, ["GOOGLE_CREDENTIALS not found in environment"])
      else
        match env.parseJson s with
        | .error e =>
            .ok (false, ["Invalid Google credentials JSON: " ++ e])
        | .ok j => do
            let missing ← missingAux j required_fields
            if missing.isEmpty then
              pure (true, [])
            else
              pure (false,
                ["Missing fields in Google credentials: " ++
                  String.intercalate ", " missing])

/-- The OpenAI half of `check_credentials`: flag plus appended errors. -/
def openaiCheck (env : Env) : Bool × List String :=
  match env.openaiApiKey with
  | none => (false, ["OPENAI_API_KEY not found in environment"])
  | some k =>
      if k = "" then
        (false, ["OPENAI_API_KEY not found in environment"])
      else if pyStartsWith k "sk-" && decide (k.length > 20) then
        (true, [])
      else
        (false, ["Invalid OpenAI API key format"])

/-- Translation of `check_credentials()`.  The Google block runs first and may raise
(`TypeError` from `f not in creds_dict` on a non-container parse
result); the OpenAI block cannot raise.  Errors accumulate in order. -/
def check_credentials (env : Env) : Except String CredStatus := do
  let g ← googleCheck env
  let o := openaiCheck env
  pure { google := g.1, openai := o.1, errors := g.2 ++ o.2 }

/-- A single quote character, used by Python `repr` of strings and by
the prompt text. -/
def sq : String := String.singleton (Char.ofNat 39)

/-- Python `f"{labels}"` formatting of a list of strings:
`[` + comma-separated single-quoted entries + `]`. -/
def pyListRepr (xs : List String) : String :=
  "[" ++ String.intercalate ", " (xs.map (fun s => sq ++ s ++ sq)) ++ "]"

/-- The fixed text of the prompt f-string (lines 144-163 of
`src/server/main.py`), as a function of the embedded label list and of
the string substituted for `labels[4] if len(labels) > 4 else
"clothing"`.  Literal braces of the f-string (`\x7b\x7b` / `\x7d\x7d`
in the source) appear once in the output. -/
def promptText (labels : List String) (fifth : String) : String :=
  "\n        Based on these Vision AI labels for a clothing item: " ++
  pyListRepr labels ++
  "\n        \n        Generate a detailed JSON object describing the item. For each field, make an educated guess based on the labels and common clothing characteristics.\n        \n        Required fields:\n        \x7b\n          \"color\": \"Describe the main color(s) of the item. If unclear, make a reasonable guess based on similar items\",\n          \"collar_type\": \"Describe the collar style (e.g., crew neck, v-neck, polo, etc.). If not visible, use \x27unknown\x27\",\n          \"sleeve_type\": \"Describe the sleeve style (e.g., short sleeve, long sleeve, etc.)\",\n          \"fit\": \"Describe how the item appears to fit (e.g., regular, loose, fitted)\",\n          \"style\": \"Specify if the item is blank, graphic, or embellished\",\n          \"pattern\": \"Describe any visible pattern or state \x27solid\x27 if none\"\n        \x7d\n\n        The labels indicate this is an \x27" ++
  fifth ++
  "\x27 item.\n        Analyze these labels and provide specific, confident descriptions even if some details are implied rather than explicitly stated.\n        \n        Respond ONLY with the JSON object, no additional text.\n        "

/-- The conditional expression
`labels[4] if len(labels) > 4 else "clothing"` with Python indexing
semantics (the index is only taken under the guard). -/
def fifthLabel (labels : List String) : Except String String :=
  if labels.length > 4 then pyIndex labels 4 else .ok "clothing"

/-- Construction of the prompt string inside `analyze` (an exception
from the conditional expression would propagate to the outer
`except` of the handler). -/
def buildPrompt (labels : List String) : Except String String := do
  let fifth ← fifthLabel labels
  pure (promptText labels fifth)

/-- Outcome of the OpenAI chat-completion call as seen by the inner
`try` of `analyze`: a returned message content, or one of the caught
exception classes (`openai.AuthenticationError`, `openai.APIError`, any
other `Exception` — the last also covers faults while extracting
`completion.choices[0].message.content`). -/
inductive GenResult where
  | ok (text : String) : GenResult
  | authError (msg : String) : GenResult
  | apiError (msg : String) : GenResult
  | otherError (msg : String) : GenResult

/-- Result object of `requests.get(image_url)`. -/
structure DownloadResp where
  ok : Bool
  statusCode : Nat
  content : List Nat
deriving Repr, DecidableEq

/-- The three external collaborators invoked by `analyze`, modelled as
fixed response functions: `requests.get` on the image URL (which raises
on a non-string or unreachable URL), `vision_client.label_detection`
returning the list of `label.description` strings (or raising), and the
OpenAI chat-completion call on the user prompt (the model name, system
message, temperature, `max_tokens` and `response_format` arguments are
fixed constants in the source and do not vary per request). -/
structure Collaborators where
  download : Json → Except String DownloadResp
  detectLabels : List Nat → Except String (List String)
  generate : String → GenResult

/-- HTTP response: status code plus JSON body (the OPTIONS branch
returns an empty-string body). -/
structure Response where
  statusCode : Nat
  body : Json
deriving Repr

/-- Body of an incoming request as seen through `request.get_json()`:
either the parsed JSON value, or the exception Flask raises for an
unparsable (or wrongly typed) body. -/
inductive ReqBody where
  | parsed (data : Json) : ReqBody
  | unparseable (msg : String) : ReqBody

/-- HTTP method of a request to `/analyze`. -/
inductive Method where
  | post : Method
  | options : Method
deriving DecidableEq, Repr

/-- An incoming request to `/analyze`. -/
structure Request where
  method : Method
  body : ReqBody

/-- The pipeline stages of the `analyze` handler, in the order the code
executes them (the credential check at line 102 runs before the body is
read at line 115). -/
inductive Step where
  | checkingCredentials : Step
  | validatingInput : Step
  | downloading : Step
  | labeling : Step
  | prompting : Step
  | generating : Step
  | validatingOutput : Step
  | responding : Step
deriving DecidableEq, Repr

/-- The full stage order actually executed by `analyze` on a fully
successful run. -/
def stateOrder : List Step :=
  [Step.checkingCredentials, Step.validatingInput, Step.downloading,
   Step.labeling, Step.prompting, Step.generating,
   Step.validatingOutput, Step.responding]

/-- The first `n` stages of `stateOrder`. -/
def steps (n : Nat) : List Step := stateOrder.take n

/-- Body of the `try:` block of `analyze` (lines 100-208), instrumented
with the list of stages reached.  `Except.error` is an exception
escaping to the outer `except Exception` handler. -/
def analyzeTry (env : Env) (c : Collaborators) (body : ReqBody) :
    Except String Response × List Step :=
  match check_credentials env with
  | .error e => (.error e, steps 1)
  | .ok cred =>
    if !cred.google || !cred.openai then
      (.ok ⟨500, .obj [("error", .str "Credential issues"),
          ("details", .arr (cred.errors.map Json.str))]⟩, steps 1)
    else if !env.visionClientInit then
      (.ok ⟨500, .obj [("error", .str "Google Vision client not initialized"),
          ("details", .str "Check server logs for initialization errors")]⟩,
        steps 1)
    else
      match body with
      | .unparseable e => (.error e, steps 2)
      | .parsed data =>
        if !data.isTruthy then
          (.ok ⟨400, .obj [("error", .str "No JSON data received")]⟩, steps 2)
        else
          match pyGet data "imageUrl" with
          | .error e => (.error e, steps 2)
          | .ok imageUrl =>
            if !imageUrl.isTruthy then
              (.ok ⟨400, .obj [("error", .str "No image URL provided")]⟩,
                steps 2)
            else
              match c.download imageUrl with
              | .error e => (.error e, steps 3)
              | .ok resp =>
                if !resp.ok then
                  (.ok ⟨400, .obj [("error",
                      .str ("Failed to download image: " ++
                        toString resp.statusCode))]⟩, steps 3)
                else
                  match c.detectLabels resp.content with
                  | .error e => (.error e, steps 4)
                  | .ok labels =>
                    match buildPrompt labels with
                    | .error e => (.error e, steps 5)
                    | .ok prompt =>
                      match c.generate prompt with
                      | .authError _ =>
                          (.ok ⟨500, .obj [("error",
                              .str "OpenAI API key is invalid")]⟩, steps 6)
                      | .apiError m =>
                          (.ok ⟨500, .obj [("error",
                              .str ("OpenAI API Error: " ++ m))]⟩, steps 6)
                      | .otherError m =>
                          (.ok ⟨500, .obj [("error",
                              .str ("Error generating specifics: " ++ m))]⟩,
                            steps 6)
                      | .ok specifics =>
                        match env.parseJson specifics with
                        | .error _ =>
                            (.ok ⟨500, .obj [("error",
                                .str "Invalid JSON response from OpenAI")]⟩,
                              steps 7)
                        | .ok _ =>
                            (.ok ⟨200, .obj [("success", .bool true),
                                ("itemSpecifics", .str specifics),
                                ("labels", .arr (labels.map Json.str))]⟩,
                              steps 8)

/-- The `/analyze` handler: the OPTIONS preflight short-circuit, then
the `try:` body with the outer `except Exception` converting any
escaped exception into a 500 response `{"error": str(e)}`. -/
def analyze (env : Env) (c : Collaborators) (req : Request) :
    Response × List Step :=
  match req.method with
  | .options => (⟨204, Json.str ""⟩, [])
  | .post =>
    match analyzeTry env c req.body with
    | (.ok r, tr) => (r, tr)
    | (.error e, tr) => (⟨500, .obj [("error", .str e)]⟩, tr)

/-- The `jsonify` image of a `CredStatus` value. -/
def credStatusJson (c : CredStatus) : Json :=
  .obj [("google", .bool c.google), ("openai", .bool c.openai),
        ("errors", .arr (c.errors.map Json.str))]

/-- The `/status` handler (`now` stands for `datetime.now().isoformat()`;
an exception from `check_credentials` propagates to the framework). -/
def statusRoute (env : Env) (now : String) : Except String Response := do
  let cred ← check_credentials env
  pure ⟨200, .obj [("server", .str "running"),
      ("credentials", credStatusJson cred), ("time", .str now)]⟩

/-! ### Spec-side predicates

These few definitions follow the wording of the specification (they are
what the claims quantify over or assert), to be compared with the
behaviour of the code-derived definitions above. -/

/-- The six required keys of `ItemSpecifics` (spec section 3). -/
def requiredSpecKeys : List String :=
  ["color", "collar_type", "sleeve_type", "fit", "style", "pattern"]

/-- Spec notion of a JSON value containing a given key: only objects
have keys. -/
def jsonHasKey (j : Json) (k : String) : Bool :=
  match j with
  | .obj kvs => kvs.any (fun kv => kv.1 == k)
  | _ => false

/-- Spec notion of `ItemSpecifics` containing exactly the six required
keys: an object whose key set is precisely `requiredSpecKeys`. -/
def hasExactlyRequiredKeys (j : Json) : Bool :=
  match j with
  | .obj kvs =>
      requiredSpecKeys.all (fun k => kvs.any (fun kv => kv.1 == k)) &&
      kvs.all (fun kv => requiredSpecKeys.contains kv.1)
  | _ => false

/-- Spec shape of an error body: an object whose keys are exactly
`error` (a string) or `error` then `details`. -/
def errorShape (j : Json) : Bool :=
  match j with
  | .obj kvs =>
      (kvs.map Prod.fst == ["error"] ||
       kvs.map Prod.fst == ["error", "details"]) &&
      (match jsonLookup j "error" with
       | some (.str _) => true
       | _ => false)
  | _ => false

/-- The `GOOGLE_CREDENTIALS` configuration is absent, empty,
unparsable, or parses to a JSON object lacking one of the four
required keys. -/
def googleCredsDeficient (env : Env) : Bool :=
  match env.googleCredentials with
  | none => true
  | some s =>
      s == "" ||
      (match env.parseJson s with
       | .error _ => true
       | .ok j =>
         match j with
         | .obj kvs =>
             !(required_fields.all (fun f => kvs.any (fun kv => kv.1 == f)))
         | _ => false)

/-- The parsed request body is falsy, or its `imageUrl` field reads
back (via `dict.get`) as a falsy value. -/
def missingImageUrl (data : Json) : Bool :=
  !data.isTruthy ||
  (match pyGet data "imageUrl" with
   | .ok u => !u.isTruthy
   | .error _ => false)

/-- A request body that never reaches the download stage: unparsable,
falsy, lacking a usable `imageUrl`, or not a dict at all. -/
def invalidInput (b : ReqBody) : Bool :=
  match b with
  | .unparseable _ => true
  | .parsed d =>
      !d.isTruthy ||
      (match pyGet d "imageUrl" with
       | .error _ => true
       | .ok u => !u.isTruthy)

/-! ### Concrete fixtures for witnesses and counterexamples -/

/-- A well-formed Google credential blob, parsed. -/
def goodCredsObj : Json :=
  .obj [("type", .str "service_account"), ("project_id", .str "demo"),
        ("private_key", .str "key"), ("client_email", .str "svc@demo")]

/-- The JSON text of `goodCredsObj`. -/
def goodCredsText : String :=
  "\x7b\"type\": \"service_account\", \"project_id\": \"demo\", \"private_key\": \"key\", \"client_email\": \"svc@demo\"\x7d"

/-- A JSON *string* whose text happens to contain all four required key
names as substrings. -/
def strCredsVal : String := "type project_id private_key client_email"

/-- The JSON text of `strCredsVal` (a quoted string, valid JSON). -/
def strCredsText : String :=
  "\"" ++ strCredsVal ++ "\""

/-- A generator output carrying exactly the six required keys. -/
def okSpecText : String :=
  "\x7b\"color\": \"blue\", \"collar_type\": \"crew\", \"sleeve_type\": \"short\", \"fit\": \"regular\", \"style\": \"blank\", \"pattern\": \"solid\"\x7d"

/-- The parse of `okSpecText`. -/
def okSpecObj : Json :=
  .obj [("color", .str "blue"), ("collar_type", .str "crew"),
        ("sleeve_type", .str "short"), ("fit", .str "regular"),
        ("style", .str "blank"), ("pattern", .str "solid")]

/-- A concrete model of `json.loads` on the handful of texts the
fixtures use; everything else is a decode error. -/
def parseJsonFixture : String → Except String Json := fun s =>
  if s = goodCredsText then .ok goodCredsObj
  else if s = strCredsText then .ok (.str strCredsVal)
  else if s = "\x7b\x7d" then .ok (.obj [])
  else if s = okSpecText then .ok okSpecObj
  else .error "Expecting value: line 1 column 1 (char 0)"

/-- Fully valid configuration. -/
def envGood : Env :=
  { googleCredentials := some goodCredsText
    openaiApiKey := some "sk-proj-0123456789abcdefghij"
    parseJson := parseJsonFixture
    visionClientInit := true }

/-- Configuration with both credentials absent. -/
def envNoCreds : Env :=
  { googleCredentials := none
    openaiApiKey := none
    parseJson := parseJsonFixture
    visionClientInit := false }

/-- Configuration whose Google blob parses to a bare JSON string that
contains the four key names as substrings. -/
def envStrCreds : Env :=
  { googleCredentials := some strCredsText
    openaiApiKey := some "sk-proj-0123456789abcdefghij"
    parseJson := parseJsonFixture
    visionClientInit := true }

/-- Configuration whose Google blob parses to an empty JSON object. -/
def envObjMissing : Env :=
  { googleCredentials := some "\x7b\x7d"
    openaiApiKey := some "sk-proj-0123456789abcdefghij"
    parseJson := parseJsonFixture
    visionClientInit := true }

/-- Some image bytes. -/
def imgBytes : List Nat := [137, 80, 78, 71]

/-- A six-entry label list (index 4 is present). -/
def labelsSix : List String :=
  ["Clothing", "Sleeve", "Blue", "Cotton", "T-shirt", "Crew neck"]

/-- Collaborators that all succeed, with a well-keyed generator
output. -/
def collabGood : Collaborators :=
  { download := fun _ => .ok ⟨true, 200, imgBytes⟩
    detectLabels := fun _ => .ok labelsSix
    generate := fun _ => GenResult.ok okSpecText }

/-- Collaborators whose generator returns the empty JSON object. -/
def collabEmptyObj : Collaborators :=
  { download := fun _ => .ok ⟨true, 200, imgBytes⟩
    detectLabels := fun _ => .ok labelsSix
    generate := fun _ => GenResult.ok "\x7b\x7d" }

/-- Collaborators whose generator returns prose that is not JSON. -/
def collabNonJson : Collaborators :=
  { download := fun _ => .ok ⟨true, 200, imgBytes⟩
    detectLabels := fun _ => .ok labelsSix
    generate := fun _ => GenResult.ok "Sure, here is the item" }

/-- A valid request carrying an image URL. -/
def reqGood : Request :=
  ⟨.post, .parsed (.obj [("imageUrl", .str "http://example.com/shirt.png")])⟩

/-- A truthy request body with no `imageUrl` field. -/
def reqNoUrl : Request :=
  ⟨.post, .parsed (.obj [("foo", .str "bar")])⟩

/-! ### Helper lemmas -/

/-- The conditional `labels[4] if len(labels) > 4 else "clothing"` never
raises, and equals `labels.getD 4 "clothing"`. -/
theorem buildPrompt_eq (labels : List String) :
    buildPrompt labels = .ok (promptText labels (labels.getD 4 "clothing")) := by
  unfold buildPrompt fifthLabel pyIndex
  by_cases h : labels.length > 4
  · rw [if_pos h]
    have hg : labels.get? 4 = some (labels.getD 4 "clothing") := by
      rw [List.getD_eq_getElem _ _ h, List.get?_eq_getElem?]
      exact List.getElem?_eq_getElem h
    rw [hg]
    rfl
  · rw [if_neg h]
    rw [List.getD_eq_default _ _ (by omega)]
    rfl

/-- On the all-success path, `analyze` returns the 200 body built at
lines 202-208 of the source, having traversed every stage. -/
theorem analyzeTry_success (env : Env) (c : Collaborators) (data url : Json)
    (cred : CredStatus) (resp : DownloadResp) (labels : List String)
    (spec : String) (j : Json)
    (hcred : check_credentials env = .ok cred)
    (hg : cred.google = true) (ho : cred.openai = true)
    (hv : env.visionClientInit = true)
    (ht : data.isTruthy = true)
    (hu : pyGet data "imageUrl" = .ok url) (hut : url.isTruthy = true)
    (hd : c.download url = .ok resp) (hok : resp.ok = true)
    (hl : c.detectLabels resp.content = .ok labels)
    (hgen : c.generate (promptText labels (labels.getD 4 "clothing")) =
      GenResult.ok spec)
    (hp : env.parseJson spec = .ok j) :
    analyze env c ⟨.post, .parsed data⟩ =
      (⟨200, .obj [("success", .bool true), ("itemSpecifics", .str spec),
        ("labels", .arr (labels.map Json.str))]⟩, stateOrder) := by
  simp only [analyze, analyzeTry, hcred, hg, ho, hv, ht, hu, hut, hd, hok, hl,
    buildPrompt_eq, hgen, hp, Bool.not_true, Bool.or_self, Bool.false_or,
    Bool.not_false, if_false, if_true]
  rfl

/-- The trace of `analyze` on a POST is the trace of its `try:` body
(the outer `except` only reshapes the response). -/
theorem analyze_trace_eq (env : Env) (c : Collaborators) (b : ReqBody) :
    (analyze env c ⟨.post, b⟩).2 = (analyzeTry env c b).2 := by
  unfold analyze
  rcases h : analyzeTry env c b with ⟨r | e, tr⟩ <;> simp [h]

/-- Every run of the `try:` body reaches a prefix of the stage order:
the stages are strictly sequential and any failure short-circuits. -/
theorem analyzeTry_trace_take (env : Env) (c : Collaborators) (b : ReqBody) :
    ∃ n, n ≤ 8 ∧ (analyzeTry env c b).2 = steps n := by
  unfold analyzeTry
  repeat' split
  all_goals first
    | exact ⟨1, by omega, rfl⟩
    | exact ⟨2, by omega, rfl⟩
    | exact ⟨3, by omega, rfl⟩
    | exact ⟨4, by omega, rfl⟩
    | exact ⟨5, by omega, rfl⟩
    | exact ⟨6, by omega, rfl⟩
    | exact ⟨7, by omega, rfl⟩
    | exact ⟨8, by omega, rfl⟩

/-- A request without a usable body never gets past input validation:
its trace stops at stage 1 or stage 2. -/
theorem analyzeTry_invalid_steps (env : Env) (c : Collaborators) (b : ReqBody)
    (h : invalidInput b = true) :
    (analyzeTry env c b).2 = steps 1 ∨ (analyzeTry env c b).2 = steps 2 := by
  unfold invalidInput at h
  unfold analyzeTry
  repeat' split
  all_goals simp_all

/-- When everything up to generation succeeds but the generator output
fails `json.loads`, the handler returns the line-190 response. -/
theorem analyzeTry_genfail (env : Env) (c : Collaborators) (data url : Json)
    (cred : CredStatus) (resp : DownloadResp) (labels : List String)
    (spec e : String)
    (hcred : check_credentials env = .ok cred)
    (hg : cred.google = true) (ho : cred.openai = true)
    (hv : env.visionClientInit = true)
    (ht : data.isTruthy = true)
    (hu : pyGet data "imageUrl" = .ok url) (hut : url.isTruthy = true)
    (hd : c.download url = .ok resp) (hok : resp.ok = true)
    (hl : c.detectLabels resp.content = .ok labels)
    (hgen : c.generate (promptText labels (labels.getD 4 "clothing")) =
      GenResult.ok spec)
    (hp : env.parseJson spec = .error e) :
    analyze env c ⟨.post, .parsed data⟩ =
      (⟨500, .obj [("error", .str "Invalid JSON response from OpenAI")]⟩,
        steps 7) := by
  simp only [analyze, analyzeTry, hcred, hg, ho, hv, ht, hu, hut, hd, hok, hl,
    buildPrompt_eq, hgen, hp, Bool.not_true, Bool.or_self, Bool.false_or,
    Bool.not_false, if_false, if_true]
  rfl

/-- A bare `{"error": ...}` body has the error shape. -/
theorem errorShape_single (s : String) :
    errorShape (.obj [("error", .str s)]) = true := by
  simp [errorShape, jsonLookup, List.find?]

/-- An `{"error": ..., "details": ...}` body has the error shape. -/
theorem errorShape_details (s : String) (d : Json) :
    errorShape (.obj [("error", .str s), ("details", d)]) = true := by
  simp [errorShape, jsonLookup, List.find?]

/-- Every response the `try:` body returns itself (no escaped
exception) is a 200, or a 400/500 carrying an error body. -/
theorem analyzeTry_resp_shape (env : Env) (c : Collaborators) (b : ReqBody)
    (r : Response) (h : (analyzeTry env c b).1 = .ok r) :
    (r.statusCode = 200 ∨ r.statusCode = 400 ∨ r.statusCode = 500) ∧
    (r.statusCode = 200 ∨ errorShape r.body = true) := by
  unfold analyzeTry at h
  repeat' split at h
  all_goals cases h
  all_goals simp [errorShape_single, errorShape_details]

/-- The Google half never clears its flag silently. -/
theorem googleCheck_false_errors (env : Env) (g : Bool) (ge : List String)
    (h : googleCheck env = .ok (g, ge)) (hf : g = false) : ge ≠ [] := by
  unfold googleCheck at h
  repeat' split at h
  case h_2.isFalse.h_2 j hj =>
    rename_i s hs pj
    rcases hm : missingAux j required_fields with e | missing
    all_goals rw [hm] at h
    · cases h
    · by_cases hme : missing.isEmpty
      all_goals simp only [hme, Except.bind, bind, pure, if_pos, if_neg,
        Bool.false_eq_true, if_false, if_true] at h
      all_goals injection h with h2
      all_goals injection h2 with h3 h4
      · simp_all
      · subst h4
        simp
  all_goals injection h with h2
  all_goals injection h2 with h3 h4
  all_goals subst h4
  all_goals simp

/-- The OpenAI half never clears its flag silently. -/
theorem openaiCheck_false_errors (env : Env) (o : Bool) (oe : List String)
    (h : openaiCheck env = (o, oe)) (hf : o = false) : oe ≠ [] := by
  unfold openaiCheck at h
  repeat' split at h
  all_goals injection h with h3 h4
  all_goals subst h4
  all_goals simp_all

/-- The OpenAI flag is set exactly for a present key with the `sk-`
prefix and length strictly above 20. -/
theorem openaiCheck_valid_iff (env : Env) :
    (openaiCheck env).1 = true ↔
      (∃ k, env.openaiApiKey = some k ∧ k ≠ "" ∧
        pyStartsWith k "sk-" = true ∧ k.length > 20) := by
  rcases hk : env.openaiApiKey with _ | k
  · simp [openaiCheck, hk]
  · by_cases he : k = ""
    · subst he
      simp [openaiCheck, hk]
    · by_cases hsw : pyStartsWith k "sk-"
      · by_cases hlen : k.length > 20
        · simp [openaiCheck, hk, he, hsw, hlen]
        · simp [openaiCheck, hk, he, hsw, hlen]
      · simp [openaiCheck, hk, he, hsw]

/-- A failed OpenAI check appends one of the two fixed messages. -/
theorem openaiCheck_false_msg (env : Env)
    (hf : (openaiCheck env).1 = false) :
    "OPENAI_API_KEY not found in environment" ∈ (openaiCheck env).2 ∨
    "Invalid OpenAI API key format" ∈ (openaiCheck env).2 := by
  unfold openaiCheck at hf ⊢
  repeat' split
  all_goals simp_all

/-- On a JSON object, the missing-fields comprehension never raises and
is a plain filter. -/
theorem missingAux_obj (kvs : List (String × Json)) (fs : List String) :
    missingAux (.obj kvs) fs =
      .ok (fs.filter (fun f => !kvs.any (fun kv => kv.1 == f))) := by
  induction fs with
  | nil => rfl
  | cons f fs ih =>
      by_cases hb : kvs.any (fun kv => kv.1 == f)
      all_goals simp [missingAux, pyIn, ih, List.filter_cons, hb]
      all_goals rfl

/-- A deficient `GOOGLE_CREDENTIALS` value (absent, empty, unparsable,
or an object lacking a required key) always fails the Google check. -/
theorem googleCheck_deficient (env : Env)
    (h : googleCredsDeficient env = true) :
    ∃ ge, googleCheck env = .ok (false, ge) := by
  unfold googleCredsDeficient at h
  rcases hk : env.googleCredentials with _ | s
  · exact ⟨["GOOGLE_CREDENTIALS not found in environment"],
      by simp [googleCheck, hk]⟩
  · rw [hk] at h
    by_cases he : s = ""
    · exact ⟨["GOOGLE_CREDENTIALS not found in environment"],
        by simp [googleCheck, hk, he]⟩
    · rcases hp : env.parseJson s with e | j
      · exact ⟨["Invalid Google credentials JSON: " ++ e],
          by simp [googleCheck, hk, he, hp]⟩
      · simp only [hp, Bool.or_eq_true, beq_iff_eq] at h
        rcases h with h | h
        · exact absurd h he
        · rcases j with _ | b | n | s2 | xs | kvs
          · simp at h
          · simp at h
          · simp at h
          · simp at h
          · simp at h
          · have hne : (required_fields.filter
                (fun f => !kvs.any (fun kv => kv.1 == f))) ≠ [] := by
              intro hnil
              rw [List.filter_eq_nil_iff] at hnil
              rw [Bool.not_eq_true'] at h
              rw [Bool.eq_false_iff] at h
              apply h
              rw [List.all_eq_true]
              intro f hf
              have hx := hnil f hf
              simp only [Bool.not_eq_true] at hx
              simpa using hx
            rcases hfe : required_fields.filter
                (fun f => !kvs.any (fun kv => kv.1 == f)) with _ | ⟨m, ms⟩
            · exact absurd hfe hne
            · refine ⟨["Missing fields in Google credentials: " ++
                String.intercalate ", " (m :: ms)], ?_⟩
              simp [googleCheck, hk, he, hp, missingAux_obj, hfe]
              rfl

/-- The outer handler passes through a response produced inside the
`try:` body. -/
theorem analyze_post_ok (env : Env) (c : Collaborators) (b : ReqBody)
    (r : Response) (tr : List Step) (h : analyzeTry env c b = (.ok r, tr)) :
    analyze env c ⟨.post, b⟩ = (r, tr) := by
  unfold analyze
  rw [h]

/-- A failing Google flag stops the pipeline at the credential stage
with the 500 response of lines 104-107. -/
theorem analyzeTry_cred_fail (env : Env) (c : Collaborators) (b : ReqBody)
    (cred : CredStatus) (hcred : check_credentials env = .ok cred)
    (hg : cred.google = false) :
    analyzeTry env c b = (.ok ⟨500, .obj [("error", .str "Credential issues"),
      ("details", .arr (cred.errors.map Json.str))]⟩, steps 1) := by
  simp only [analyzeTry, hcred, hg, Bool.not_false, Bool.true_or, if_true]

/-- C3, counterexample: on a request whose body is perfectly valid but
whose configuration lacks credentials, the trace contains the
credential check and never reaches input validation, so input
validation does not occur before the credential check as the claimed
state order `ValidatingInput` before `CheckingCredentials` requires
(the code checks credentials first, line 102 versus line 115). -/
theorem c3_counterexample :
    (analyze envNoCreds collabGood reqGood).2 = [Step.checkingCredentials] ∧
    Step.checkingCredentials ∈ (analyze envNoCreds collabGood reqGood).2 ∧
    Step.validatingInput ∉ (analyze envNoCreds collabGood reqGood).2 := by
  have h : (analyze envNoCreds collabGood reqGood).2 =
      [Step.checkingCredentials] := rfl
  refine ⟨h, ?_, ?_⟩ <;> rw [h] <;> decide

/-- C3, amended: the pipeline stages execute strictly sequentially in
the code order `CheckingCredentials`, `ValidatingInput`, `Downloading`,
`Labeling`, `Prompting`, `Generating`, `ValidatingOutput`,
`Responding`, and every run stops at a prefix of that order (any
failure short-circuits past all later stages). -/
theorem c3_theorem (env : Env) (c : Collaborators) (req : Request) :
    ∃ n, n ≤ 8 ∧ (analyze env c req).2 = steps n := by
  rcases req with ⟨m, b⟩
  cases m
  · rw [analyze_trace_eq]
    exact analyzeTry_trace_take env c b
  · exact ⟨0, by omega, rfl⟩

/-- C7: every POST run of the handler produces a response with status
200, 400 or 500, and every non-200 response body is an object of shape
error-string plus optional details; no exception escapes (the result
type of `analyze` is total, the outer `except` converts escaped
exceptions to 500 bodies). -/
theorem c7_theorem (env : Env) (c : Collaborators) (b : ReqBody) :
    ((analyze env c ⟨.post, b⟩).1.statusCode = 200 ∨
     (analyze env c ⟨.post, b⟩).1.statusCode = 400 ∨
     (analyze env c ⟨.post, b⟩).1.statusCode = 500) ∧
    ((analyze env c ⟨.post, b⟩).1.statusCode = 200 ∨
     errorShape (analyze env c ⟨.post, b⟩).1.body = true) := by
  rcases h : analyzeTry env c b with ⟨e | r, tr⟩
  · have ha : analyze env c ⟨.post, b⟩ =
        (⟨500, .obj [("error", .str e)]⟩, tr) := by
      unfold analyze
      rw [h]
    rw [ha]
    exact ⟨Or.inr (Or.inr rfl), Or.inr (errorShape_single e)⟩
  · have hs := analyzeTry_resp_shape env c b r (by rw [h])
    have ha : analyze env c ⟨.post, b⟩ = (r, tr) := analyze_post_ok env c b r tr h
    rw [ha]
    exact hs

/-- C2, counterexample: a request missing `imageUrl` sent while the
credential state is invalid receives a 500 (the credential response),
not the claimed 400 regardless of credential state. -/
theorem c2_counterexample :
    jsonLookup (.obj [("foo", .str "bar")]) "imageUrl" = none ∧
    (analyze envNoCreds collabGood reqNoUrl).1.statusCode = 500 ∧
    (analyze envNoCreds collabGood reqNoUrl).1.statusCode ≠ 400 := by
  have h : (analyze envNoCreds collabGood reqNoUrl).1.statusCode = 500 := rfl
  refine ⟨rfl, h, ?_⟩
  rw [h]
  decide

/-- C2, amended: a request whose body is unparsable or lacks a usable
`imageUrl` never invokes the download, label-detection or generation
collaborators; and when the credential check passes and the vision
client is initialized, a parsed body that is falsy or has a falsy or
absent `imageUrl` receives a 400. -/
theorem c2_theorem :
    (∀ env c b, invalidInput b = true →
      Step.downloading ∉ (analyze env c ⟨.post, b⟩).2 ∧
      Step.labeling ∉ (analyze env c ⟨.post, b⟩).2 ∧
      Step.generating ∉ (analyze env c ⟨.post, b⟩).2) ∧
    (∀ env c data cred, check_credentials env = .ok cred →
      cred.google = true → cred.openai = true →
      env.visionClientInit = true → missingImageUrl data = true →
      (analyze env c ⟨.post, .parsed data⟩).1.statusCode = 400) := by
  constructor
  · intro env c b hb
    rcases analyzeTry_invalid_steps env c b hb with h | h <;>
      refine ⟨?_, ?_, ?_⟩ <;> rw [analyze_trace_eq, h] <;> decide
  · intro env c data cred hcred hg ho hv hm
    unfold missingImageUrl at hm
    rw [Bool.or_eq_true] at hm
    by_cases ht : data.isTruthy
    · have hm2 : (match pyGet data "imageUrl" with
          | .ok u => !u.isTruthy | .error _ => false) = true := by
        rcases hm with h | h
        · rw [ht] at h
          simp at h
        · exact h
      rcases hu : pyGet data "imageUrl" with e | u
      · rw [hu] at hm2
        simp at hm2
      · rw [hu] at hm2
        have hm3 : (!u.isTruthy) = true := hm2
        simp only [analyze, analyzeTry, hcred, hg, ho, hv, ht, hu, hm3,
          Bool.not_true, Bool.or_self, Bool.not_false, if_false, if_true]
        rfl
    · have hf : data.isTruthy = false := by
        simpa using ht
      simp only [analyze, analyzeTry, hcred, hg, ho, hv, hf,
        Bool.not_true, Bool.or_self, Bool.not_false, if_false, if_true]
      rfl

/-- C2, witness at a concrete valid-credential configuration. -/
theorem c2_witness :
    (analyze envGood collabGood reqNoUrl).1.statusCode = 400 ∧
    Step.downloading ∉ (analyze envGood collabGood reqNoUrl).2 :=
  ⟨c2_theorem.2 envGood collabGood (.obj [("foo", .str "bar")])
      ⟨true, true, []⟩ rfl rfl rfl rfl rfl,
    (c2_theorem.1 envGood collabGood (.parsed (.obj [("foo", .str "bar")]))
      rfl).1⟩

/-- C1, counterexample: with valid configuration and all collaborator
calls succeeding, a generator output of the empty JSON object is
returned verbatim with a 200 and success true, although it does not
contain the six required keys: the handler checks only that the output
parses as JSON (line 188) and never inspects the keys. -/
theorem c1_counterexample :
    (analyze envGood collabEmptyObj reqGood).1.statusCode = 200 ∧
    jsonLookup (analyze envGood collabEmptyObj reqGood).1.body "success" =
      some (.bool true) ∧
    jsonLookup (analyze envGood collabEmptyObj reqGood).1.body
      "itemSpecifics" = some (.str "\x7b\x7d") ∧
    envGood.parseJson "\x7b\x7d" = .ok (.obj []) ∧
    hasExactlyRequiredKeys (.obj []) = false :=
  ⟨rfl, rfl, rfl, rfl, rfl⟩

/-- C1, amended: for every request with a usable imageUrl whose
download, label detection and generation all succeed and whose
generator output parses as JSON, the handler returns 200 with success
true and itemSpecifics exactly the raw generator output (no key-set
check is performed). -/
theorem c1_theorem (env : Env) (c : Collaborators) (data url : Json)
    (cred : CredStatus) (resp : DownloadResp) (labels : List String)
    (spec : String) (j : Json)
    (hcred : check_credentials env = .ok cred)
    (hg : cred.google = true) (ho : cred.openai = true)
    (hv : env.visionClientInit = true)
    (ht : data.isTruthy = true)
    (hu : pyGet data "imageUrl" = .ok url) (hut : url.isTruthy = true)
    (hd : c.download url = .ok resp) (hok : resp.ok = true)
    (hl : c.detectLabels resp.content = .ok labels)
    (hgen : c.generate (promptText labels (labels.getD 4 "clothing")) =
      GenResult.ok spec)
    (hp : env.parseJson spec = .ok j) :
    analyze env c ⟨.post, .parsed data⟩ =
      (⟨200, .obj [("success", .bool true), ("itemSpecifics", .str spec),
        ("labels", .arr (labels.map Json.str))]⟩, stateOrder) :=
  analyzeTry_success env c data url cred resp labels spec j
    hcred hg ho hv ht hu hut hd hok hl hgen hp

/-- C1, witness at the all-success fixture. -/
theorem c1_witness :
    analyze envGood collabGood reqGood =
      (⟨200, .obj [("success", .bool true),
        ("itemSpecifics", .str okSpecText),
        ("labels", .arr (labelsSix.map Json.str))]⟩, stateOrder) :=
  c1_theorem envGood collabGood
    (.obj [("imageUrl", .str "http://example.com/shirt.png")])
    (.str "http://example.com/shirt.png") ⟨true, true, []⟩
    ⟨true, 200, imgBytes⟩ labelsSix okSpecText okSpecObj
    rfl rfl rfl rfl rfl rfl rfl rfl rfl rfl rfl rfl

/-- C4: when the generation collaborator returns text that fails
json.loads, the handler returns 500, the error message contains
the substring Invalid JSON response, and the body has no itemSpecifics
field. -/
theorem c4_theorem (env : Env) (c : Collaborators) (data url : Json)
    (cred : CredStatus) (resp : DownloadResp) (labels : List String)
    (spec e : String)
    (hcred : check_credentials env = .ok cred)
    (hg : cred.google = true) (ho : cred.openai = true)
    (hv : env.visionClientInit = true)
    (ht : data.isTruthy = true)
    (hu : pyGet data "imageUrl" = .ok url) (hut : url.isTruthy = true)
    (hd : c.download url = .ok resp) (hok : resp.ok = true)
    (hl : c.detectLabels resp.content = .ok labels)
    (hgen : c.generate (promptText labels (labels.getD 4 "clothing")) =
      GenResult.ok spec)
    (hp : env.parseJson spec = .error e) :
    (analyze env c ⟨.post, .parsed data⟩).1.statusCode = 500 ∧
    jsonLookup (analyze env c ⟨.post, .parsed data⟩).1.body "error" =
      some (.str "Invalid JSON response from OpenAI") ∧
    isSubstr "Invalid JSON response"
      "Invalid JSON response from OpenAI" = true ∧
    jsonLookup (analyze env c ⟨.post, .parsed data⟩).1.body
      "itemSpecifics" = none := by
  have h := analyzeTry_genfail env c data url cred resp labels spec e
    hcred hg ho hv ht hu hut hd hok hl hgen hp
  refine ⟨by rw [h], ?_, by decide, ?_⟩ <;> rw [h] <;> rfl

/-- C4, witness with a prose generator output. -/
theorem c4_witness :
    (analyze envGood collabNonJson reqGood).1.statusCode = 500 ∧
    jsonLookup (analyze envGood collabNonJson reqGood).1.body "error" =
      some (.str "Invalid JSON response from OpenAI") ∧
    jsonLookup (analyze envGood collabNonJson reqGood).1.body
      "itemSpecifics" = none := by
  have h := c4_theorem envGood collabNonJson
    (.obj [("imageUrl", .str "http://example.com/shirt.png")])
    (.str "http://example.com/shirt.png") ⟨true, true, []⟩
    ⟨true, 200, imgBytes⟩ labelsSix "Sure, here is the item"
    "Expecting value: line 1 column 1 (char 0)"
    rfl rfl rfl rfl rfl rfl rfl rfl rfl rfl rfl rfl
  exact ⟨h.1, h.2.1, h.2.2.2⟩

/-- C5: prompt construction never raises an IndexError for any label
list; lists with fewer than 5 entries produce the prompt with the
literal clothing substituted, and lists with 5 or more entries embed
the label at index 4. -/
theorem c5_theorem (labels : List String) :
    (∃ p, buildPrompt labels = .ok p) ∧
    (labels.length < 5 →
      buildPrompt labels = .ok (promptText labels "clothing")) ∧
    (4 < labels.length →
      buildPrompt labels = .ok (promptText labels (labels.getD 4 ""))) := by
  refine ⟨⟨_, buildPrompt_eq labels⟩, ?_, ?_⟩
  · intro h
    rw [buildPrompt_eq, List.getD_eq_default _ _ (by omega)]
  · intro h
    rw [buildPrompt_eq, List.getD_eq_getElem _ _ (by omega),
      List.getD_eq_getElem _ _ (by omega)]

/-- C5, witness on the empty list and on a six-entry list. -/
theorem c5_witness :
    buildPrompt [] = .ok (promptText [] "clothing") ∧
    buildPrompt labelsSix = .ok (promptText labelsSix "T-shirt") :=
  ⟨(c5_theorem []).2.1 (by decide), (c5_theorem labelsSix).2.2 (by decide)⟩

/-- C8: two identical requests evaluated against identical collaborator
responses and identical configuration produce identical results, and on
the success path the labels field is exactly the collaborator label
list, mapped to JSON strings in the same order. -/
theorem c8_theorem (enva envb : Env) (ca cb : Collaborators)
    (reqa reqb : Request) (data url : Json) (cred : CredStatus)
    (resp : DownloadResp) (labels : List String) (spec : String) (j : Json)
    (he : envb = enva) (hc : cb = ca) (hr : reqb = reqa)
    (hreq : reqa = ⟨.post, .parsed data⟩)
    (hcred : check_credentials enva = .ok cred)
    (hg : cred.google = true) (ho : cred.openai = true)
    (hv : enva.visionClientInit = true)
    (ht : data.isTruthy = true)
    (hu : pyGet data "imageUrl" = .ok url) (hut : url.isTruthy = true)
    (hd : ca.download url = .ok resp) (hok : resp.ok = true)
    (hl : ca.detectLabels resp.content = .ok labels)
    (hgen : ca.generate (promptText labels (labels.getD 4 "clothing")) =
      GenResult.ok spec)
    (hp : enva.parseJson spec = .ok j) :
    analyze enva ca reqa = analyze envb cb reqb ∧
    (analyze enva ca reqa).1.body = .obj [("success", .bool true),
      ("itemSpecifics", .str spec),
      ("labels", .arr (labels.map Json.str))] := by
  rw [he, hc, hr, hreq]
  refine ⟨rfl, ?_⟩
  rw [analyzeTry_success enva ca data url cred resp labels spec j
    hcred hg ho hv ht hu hut hd hok hl hgen hp]

/-- C8, witness at the all-success fixture. -/
theorem c8_witness :
    analyze envGood collabGood reqGood = analyze envGood collabGood reqGood ∧
    (analyze envGood collabGood reqGood).1.body =
      .obj [("success", .bool true), ("itemSpecifics", .str okSpecText),
        ("labels", .arr (labelsSix.map Json.str))] :=
  c8_theorem envGood envGood collabGood collabGood reqGood reqGood
    (.obj [("imageUrl", .str "http://example.com/shirt.png")])
    (.str "http://example.com/shirt.png") ⟨true, true, []⟩
    ⟨true, 200, imgBytes⟩ labelsSix okSpecText okSpecObj
    rfl rfl rfl rfl rfl rfl rfl rfl rfl rfl rfl rfl rfl rfl rfl rfl

/-- C6, counterexample: a GOOGLE_CREDENTIALS value that parses to a
bare JSON string containing the four key names as substrings has no
keys at all, yet check_credentials reports google true and /status
reports it so: the code tests membership with the Python in operator,
which on strings is a substring test (line 70). -/
theorem c6_counterexample :
    envStrCreds.googleCredentials = some strCredsText ∧
    envStrCreds.parseJson strCredsText = .ok (.str strCredsVal) ∧
    (required_fields.all (fun f => jsonHasKey (.str strCredsVal) f)) = false ∧
    check_credentials envStrCreds = .ok ⟨true, true, []⟩ ∧
    statusRoute envStrCreds "2026-10-12T00:00:00" = .ok ⟨200,
      .obj [("server", .str "running"),
        ("credentials", .obj [("google", .bool true), ("openai", .bool true),
          ("errors", .arr [])]),
        ("time", .str "2026-10-12T00:00:00")]⟩ :=
  ⟨rfl, rfl, rfl, rfl, rfl⟩

/-- C6, amended: when GOOGLE_CREDENTIALS is absent, empty, unparsable,
or parses to a JSON object lacking one of the required keys, /status
reports credentials google false and /analyze returns 500 without ever
reaching the download stage. -/
theorem c6_theorem (env : Env) (h : googleCredsDeficient env = true) :
    ∃ st, check_credentials env = .ok st ∧ st.google = false ∧
      (∀ now, statusRoute env now = .ok ⟨200,
        .obj [("server", .str "running"),
          ("credentials", credStatusJson st), ("time", .str now)]⟩) ∧
      (∀ c b, (analyze env c ⟨.post, b⟩).1.statusCode = 500 ∧
        Step.downloading ∉ (analyze env c ⟨.post, b⟩).2) := by
  obtain ⟨ge, hge⟩ := googleCheck_deficient env h
  refine ⟨⟨false, (openaiCheck env).1, ge ++ (openaiCheck env).2⟩, ?_, rfl,
    ?_, ?_⟩
  · simp [check_credentials, hge]
  · intro now
    simp [statusRoute, check_credentials, hge]
  · intro c b
    have hcred : check_credentials env =
        .ok ⟨false, (openaiCheck env).1, ge ++ (openaiCheck env).2⟩ := by
      simp [check_credentials, hge]
    have ha := analyze_post_ok env c b _ _
      (analyzeTry_cred_fail env c b _ hcred rfl)
    rw [ha]
    have hd : Step.downloading ∉ steps 1 := by decide
    exact ⟨rfl, hd⟩

/-- C6, witness at the empty-object credential fixture. -/
theorem c6_witness :
    googleCredsDeficient envObjMissing = true ∧
    (analyze envObjMissing collabGood reqGood).1.statusCode = 500 ∧
    Step.downloading ∉ (analyze envObjMissing collabGood reqGood).2 := by
  obtain ⟨st, hcred, hgf, hstat, han⟩ := c6_theorem envObjMissing rfl
  exact ⟨rfl, han collabGood reqGood.body⟩

/-- C9: check_credentials sets the openai flag exactly when the key is
present (non-empty), starts with the sk- prefix, and is strictly longer
than 20 characters; in every other case the flag is false and one of
the two descriptive messages is in the errors list. -/
theorem c9_theorem (env : Env) (st : CredStatus)
    (h : check_credentials env = .ok st) :
    (st.openai = true ↔ (∃ k, env.openaiApiKey = some k ∧ k ≠ "" ∧
      pyStartsWith k "sk-" = true ∧ k.length > 20)) ∧
    (st.openai = false →
      "OPENAI_API_KEY not found in environment" ∈ st.errors ∨
      "Invalid OpenAI API key format" ∈ st.errors) := by
  rcases hg : googleCheck env with e | g
  · simp [check_credentials, hg] at h
  · have hst : st =
        ⟨g.1, (openaiCheck env).1, g.2 ++ (openaiCheck env).2⟩ := by
      simp [check_credentials, hg] at h
      exact h.symm
    subst hst
    refine ⟨openaiCheck_valid_iff env, ?_⟩
    intro hf
    rcases openaiCheck_false_msg env hf with hm | hm
    · exact Or.inl (List.mem_append_right _ hm)
    · exact Or.inr (List.mem_append_right _ hm)

/-- C9, witness at the valid-key fixture. -/
theorem c9_witness :
    (∃ k, envGood.openaiApiKey = some k ∧ k ≠ "" ∧
      pyStartsWith k "sk-" = true ∧ k.length > 20) :=
  ((c9_theorem envGood ⟨true, true, []⟩ rfl).1).mp rfl

/-- C10: whenever either flag of the returned CredStatus is false the
errors list is non-empty; equivalently an empty errors list forces both
flags true. -/
theorem c10_theorem (env : Env) (st : CredStatus)
    (h : check_credentials env = .ok st) :
    (st.google = false ∨ st.openai = false → st.errors ≠ []) ∧
    (st.errors = [] → st.google = true ∧ st.openai = true) := by
  rcases hg : googleCheck env with e | g
  · simp [check_credentials, hg] at h
  · have hst : st =
        ⟨g.1, (openaiCheck env).1, g.2 ++ (openaiCheck env).2⟩ := by
      simp [check_credentials, hg] at h
      exact h.symm
    subst hst
    constructor
    · rintro (hf | hf) <;> intro hnil
      · exact googleCheck_false_errors env g.1 g.2 (by rw [hg]) hf
          (List.append_eq_nil.mp hnil).1
      · exact openaiCheck_false_errors env (openaiCheck env).1
          (openaiCheck env).2 rfl hf (List.append_eq_nil.mp hnil).2
    · intro hnil
      obtain ⟨h1, h2⟩ := List.append_eq_nil.mp hnil
      constructor
      · rcases hb : g.1 with _ | _
        · exact absurd h1
            (googleCheck_false_errors env g.1 g.2 (by rw [hg]) hb)
        · rfl
      · rcases hb : (openaiCheck env).1 with _ | _
        · exact absurd h2 (openaiCheck_false_errors env (openaiCheck env).1
            (openaiCheck env).2 rfl hb)
        · rfl

/-- C10, witness at the empty configuration. -/
theorem c10_witness :
    check_credentials envNoCreds = .ok ⟨false, false,
      ["GOOGLE_CREDENTIALS not found in environment",
       "OPENAI_API_KEY not found in environment"]⟩ ∧
    (⟨false, false, ["GOOGLE_CREDENTIALS not found in environment",
      "OPENAI_API_KEY not found in environment"]⟩ : CredStatus).errors ≠ [] :=
  ⟨rfl, (c10_theorem envNoCreds _ rfl).1 (Or.inl rfl)⟩

end AutoSpecifics
